import Mathlib

/-!
# Verification of `advanced-vector` (vector.h)

A shallow embedding of the repository's two components:

* `RawMemory<T>` — raw storage owner: a pointer-like handle plus a capacity.
  We model the handle as `Option Nat` (`none` = `nullptr`, `some a` = a
  non-null address) and the capacity as `Nat` (`size_t` values are below
  `2 ^ 64` and no arithmetic on `capacity_` can overflow here).
* `Vector<T>` — the dynamic array: live elements `[0, size_)` over a block of
  `capacity` slots.  We model the live-element sequence as a `List α` (so
  `size_` is the list length) together with the block capacity.

Exception-throwing element operations (copy constructors / copy assignments
that may throw) are modelled by a success predicate (`copyOk i` / `assignOk j`)
passed to the fallible variants of the operations; such a variant returns
`Except e r` where the `.error` payload records what the caller of the C++
function can observe after stack unwinding (the untouched vector, plus the
offsets of new-storage elements that were constructed but never destroyed).
-/

/-- Model of `RawMemory<T>`: `buffer_` (`none` = `nullptr`) and `capacity_`. -/
structure RawMemory where
  buffer : Option Nat
  capacity : Nat
  deriving DecidableEq, Repr

/-- Move construction, vector.h lines 27-35.  The body runs
`buffer_ = std::exchange(other.buffer_, nullptr);
 capacity_ = std::exchange(other.capacity_, 0);
 Deallocate(other.buffer_);` — the final `Deallocate` sees the already-nulled
`other.buffer_`, so it frees nothing.  Returns (constructed object, source
after the move). -/
def RawMemory.moveCtor (other : RawMemory) : RawMemory × RawMemory :=
  (⟨other.buffer, other.capacity⟩, ⟨none, 0⟩)

/-- Move assignment, vector.h lines 38-42.  The body is
`buffer_ = std::move(rhs.buffer_); capacity_ = std::move(rhs.capacity_);`
— `std::move` on a pointer / `size_t` member just copies it, so `rhs` keeps
its handle and capacity.  Returns (assigned-to object, source after the
assignment). -/
def RawMemory.moveAssign (lhs rhs : RawMemory) : RawMemory × RawMemory :=
  (⟨rhs.buffer, rhs.capacity⟩, rhs)

/-- Model of `Vector<T>`: the live elements `[0, size_)` (so `size_` is
`elems.length`) and the capacity of the owned `RawMemory` block. -/
structure Vec (α : Type) where
  elems : List α
  capacity : Nat
  deriving DecidableEq, Repr

namespace Vec

/-- The grown capacity used by every growth path
(`size_ == 0 ? 1 : 2 * size_`, vector.h lines 149, 167, 252). -/
def growCapacity (size : Nat) : Nat :=
  if size = 0 then 1 else 2 * size

/-- `EmplaceBack` (vector.h lines 144-161), success path: if `size_ <
data_.Capacity()` the element is constructed in place at offset `size_`;
otherwise a block of `growCapacity size_` slots is allocated, the element is
constructed at offset `size_` there, the old elements are relocated, destroyed
and the blocks swapped.  Either way the element lands at the end. -/
def emplaceBack (v : Vec α) (x : α) : Vec α :=
  if v.elems.length < v.capacity then
    ⟨v.elems ++ [x], v.capacity⟩
  else
    ⟨v.elems ++ [x], growCapacity v.elems.length⟩

/-- `PushBackImpl` (vector.h lines 164-188), success path.  Its guard is
`size_ == data_.Capacity()` (grow) versus in-place placement. -/
def pushBack (v : Vec α) (x : α) : Vec α :=
  if v.elems.length = v.capacity then
    ⟨v.elems ++ [x], growCapacity v.elems.length⟩
  else
    ⟨v.elems ++ [x], v.capacity⟩

/-- `Emplace` (vector.h lines 214-273), success path, for an insertion
position `p = pos - begin() ≤ size_`.  In-place path (`size_ <
data_.Capacity()`): the last element is move-constructed into the slot
one-past-end, `[p, size_-1)` is shifted one slot right back-to-front, and the
new value is assigned into slot `p`.  Reallocation path: a block of
`growCapacity size_` slots is allocated, the new element is constructed at
offset `p`, the prefix `[0, p)` and suffix `[p, size_)` are relocated around
it, the old elements destroyed and the blocks swapped.  On both paths the
resulting element sequence is `take p ++ [x] ++ drop p`. -/
def emplace (v : Vec α) (p : Nat) (x : α) : Vec α :=
  if v.elems.length < v.capacity then
    ⟨v.elems.take p ++ [x] ++ v.elems.drop p, v.capacity⟩
  else
    ⟨v.elems.take p ++ [x] ++ v.elems.drop p, growCapacity v.elems.length⟩

/-- `Erase` (vector.h lines 428-436): move-assigns `[p+1, size_)` one slot
left, then `PopBack()` destroys the now-unused last slot. -/
def erase (v : Vec α) (p : Nat) : Vec α :=
  ⟨v.elems.take p ++ v.elems.drop (p + 1), v.capacity⟩

/-- `Reserve` (vector.h lines 386-406): no-op when `new_capacity ≤
data_.Capacity()`; otherwise allocates exactly `new_capacity` slots, relocates
the elements, destroys the originals and swaps blocks. -/
def reserve (v : Vec α) (n : Nat) : Vec α :=
  if n ≤ v.capacity then v else ⟨v.elems, n⟩

/-- `Resize` (vector.h lines 354-362): shrink destroys `[new_size, size_)`;
grow calls `Reserve(new_size)` and value-constructs the tail (modelled by
`default`); finally `size_ = new_size`. -/
def resize [Inhabited α] (v : Vec α) (n : Nat) : Vec α :=
  if n < v.elems.length then
    ⟨v.elems.take n, v.capacity⟩
  else
    ⟨v.elems ++ List.replicate (n - v.elems.length) default,
     (v.reserve n).capacity⟩

/-- `PopBack` (vector.h lines 365-369): `std::destroy_at(data_ + (size_ - 1));
--size_;` with no emptiness check.  The element part: index `size_ - 1` is the
last live element, so the live sequence becomes `dropLast`. -/
def popBack (v : Vec α) : Vec α :=
  ⟨v.elems.dropLast, v.capacity⟩

/-- The `size_` counter after `--size_` in `PopBack`, as the 64-bit unsigned
`size_t` arithmetic performs it: subtraction modulo `2 ^ 64`. -/
def sizeAfterPopBack (size : Nat) : Nat :=
  (size + (2 ^ 64 - 1)) % 2 ^ 64

/-- Copy constructor `Vector(const Vector&)` (vector.h lines 302-308):
allocates exactly `other.size_` slots and copy-constructs each element. -/
def copyCtor (other : Vec α) : Vec α :=
  ⟨other.elems, other.elems.length⟩

/-- Copy assignment `operator=(const Vector&)` (vector.h lines 320-341) for
distinct objects (the `this != &rhs` guard already passed).
If `data_.Capacity() < rhs.size_`: builds `Vector rhs_copy(rhs)` (capacity
exactly `rhs.size_`) and swaps it in.  Otherwise, if `rhs.size_ < size_`:
copy-assigns the first `rhs.size_` slots and destroys `[rhs.size_, size_)`;
else copy-assigns the first `size_` slots and copy-constructs
`[size_, rhs.size_)` into the tail. -/
def copyAssign (a rhs : Vec α) : Vec α :=
  if a.capacity < rhs.elems.length then
    ⟨rhs.elems, rhs.elems.length⟩
  else
    if rhs.elems.length < a.elems.length then
      ⟨rhs.elems, a.capacity⟩
    else
      ⟨rhs.elems.take a.elems.length ++ rhs.elems.drop a.elems.length,
       a.capacity⟩

/-- The full copy-assignment operator including its `this != &rhs` guard
(vector.h line 322); `isSelf` holds exactly when `this == &rhs`, in which case
the operands are one object and nothing runs. -/
def copyAssignOp (isSelf : Bool) (a rhs : Vec α) : Vec α :=
  if isSelf then a else copyAssign a rhs

/-- Move assignment `operator=(Vector&&)` (vector.h lines 345-350): guarded by
`this != &rhs`; when distinct it runs `Swap(rhs)`, exchanging blocks and
sizes.  Returns (assigned-to object, source after the assignment). -/
def moveAssignOp (isSelf : Bool) (a rhs : Vec α) : Vec α × Vec α :=
  if isSelf then (a, rhs) else (rhs, a)

/-- The capacity-insufficient branch of copy assignment (vector.h lines
323-326) with a fallible element copy: `Vector rhs_copy(rhs)` runs before any
mutation of `*this`, and `Swap` cannot throw, so if building the copy throws
(`ok = false`) the assigned-to vector is returned untouched. -/
def copyAssignGrow (ok : Bool) (a rhs : Vec α) : Except (Vec α) (Vec α) :=
  if ok then .ok ⟨rhs.elems, rhs.elems.length⟩ else .error a

/-- `EmplaceBack`'s reallocation path (vector.h lines 148-158) for a
copy-relocated element type (copy-constructible, move may throw), with
fallible element copies: `copyOk i` says whether copy-constructing the i-th
old element into the new block succeeds.  The code constructs the new element
at new-block offset `size_`, then runs `std::uninitialized_copy_n` with no
try/catch around it; when the copy of some element throws,
`uninitialized_copy_n` destroys only the elements it itself constructed, the
local `new_data` frees its bytes during unwinding, the old elements are never
touched (`std::destroy_n` and `Swap` are unreached) — and nothing destroys the
new element at offset `size_`.  On failure the result records the untouched
vector and the new-block offsets whose elements were constructed but never
destroyed when the exception leaves the function. -/
def emplaceBackCopyRelocate (copyOk : Nat → Bool) (v : Vec α) (x : α) :
    Except (Vec α × List Nat) (Vec α) :=
  if v.elems.length < v.capacity then
    .ok ⟨v.elems ++ [x], v.capacity⟩
  else
    if (List.range v.elems.length).all copyOk then
      .ok ⟨v.elems ++ [x], growCapacity v.elems.length⟩
    else
      .error (v, [v.elems.length])

/-- `PushBackImpl`'s reallocation path (vector.h lines 166-183) for a
copy-relocated type with fallible element copies.  Unlike `EmplaceBack`, its
`uninitialized_copy_n` sits in a `try` whose `catch` runs
`std::destroy_n(new_data.GetAddress() + size_, 1)` — destroying the new
element at offset `size_` — before rethrowing, so no constructed element
survives in the new block. -/
def pushBackCopyRelocate (copyOk : Nat → Bool) (v : Vec α) (x : α) :
    Except (Vec α × List Nat) (Vec α) :=
  if v.elems.length = v.capacity then
    if (List.range v.elems.length).all copyOk then
      .ok ⟨v.elems ++ [x], growCapacity v.elems.length⟩
    else
      .error (v, [])
  else
    .ok ⟨v.elems ++ [x], v.capacity⟩

/-- `Emplace`'s reallocation path (vector.h lines 250-264) at position `p` for
a copy-relocated type with fallible element copies.  The new element is
constructed at new-block offset `p`, then the prefix `[0, p)` and the suffix
`[p, size_)` (landing at offsets `[p+1, size_+1)`) are copied by two
`uninitialized_copy_n` calls with no try/catch.  If the prefix copy throws,
only the new element at offset `p` survives undestroyed; if the suffix copy
throws, the whole prefix `[0, p)` and the new element at `p` survive
undestroyed.  On failure the result records the untouched vector and those
offsets. -/
def emplaceReallocCopyRelocate (copyOk : Nat → Bool) (v : Vec α) (p : Nat)
    (x : α) : Except (Vec α × List Nat) (Vec α) :=
  if (List.range p).all copyOk then
    if (List.range (v.elems.length - p)).all (fun i => copyOk (p + i)) then
      .ok ⟨v.elems.take p ++ [x] ++ v.elems.drop p, growCapacity v.elems.length⟩
    else
      .error (v, List.range p ++ [p])
  else
    .error (v, [p])

/-- `Emplace`'s in-place path at an interior position `p < size_` (vector.h
lines 224-243) for a copy-relocated type, with fallible copy assignment:
`assignOk j` says whether the copy-assignment writing slot `j` succeeds.  The
code constructs the new value in a temporary, move-constructs the last element
into the slot one-past-end (offset `size_`), then inside `try` runs
`std::copy_backward(begin() + p, end() - 1, end())` — writing slots `size_-1`
down to `p+1` — followed by `data_[p] = std::move(copy)` (slot `p`); the
`catch` destroys the one-past-end slot and rethrows before `++size_` runs.
The source spells that destruction `std::destroy(end(), 1)`, which is
ill-formed C++ (`std::destroy` takes an iterator range, not a count); it is
modelled here as the evidently intended `std::destroy_n(end(), 1)` — the call
the analogous handler in `PushBackImpl` makes (vector.h line 177).  On failure
the result records whether the one-past-end slot still holds a constructed
element, and the value of `size_`. -/
def emplaceInPlaceCopyShift (assignOk : Nat → Bool) (v : Vec α) (p : Nat)
    (x : α) : Except (Bool × Nat) (Vec α) :=
  if ((List.range (v.elems.length - p)).map
        (fun k => v.elems.length - 1 - k)).all assignOk then
    .ok ⟨v.elems.take p ++ [x] ++ v.elems.drop p, v.capacity⟩
  else
    .error (false, v.elems.length)

end Vec

/-- A heap of allocated element blocks, used to state storage independence:
`blocks a` is the live-element contents of the block at address `a`;
addresses `≥ next` are unallocated (`RawMemory::Allocate` always returns a
fresh region, modelled by handing out `next`). -/
structure Heap (α : Type) where
  blocks : Nat → List α
  next : Nat

/-- A vector as a handle into a `Heap`: the address of its owned `RawMemory`
block and that block's capacity; its live elements are `h.blocks addr`. -/
structure HVec (α : Type) where
  addr : Nat
  capacity : Nat

/-- The copy constructor in the heap model (vector.h lines 302-308):
`data_(other.size_)` allocates a fresh block of capacity exactly
`other.size_`, into which each element of `other` is copy-constructed;
`other`'s block is read, never written. -/
def copyCtorH {α : Type} (h : Heap α) (other : HVec α) : HVec α × Heap α :=
  (⟨h.next, (h.blocks other.addr).length⟩,
   ⟨fun a => if a = h.next then h.blocks other.addr else h.blocks a,
    h.next + 1⟩)

/-- A mutation of the vector owning the block at `addr` rewrites that block's
contents only (every mutating `Vector` operation writes through `data_`). -/
def writeBlock {α : Type} (h : Heap α) (addr : Nat) (xs : List α) : Heap α :=
  ⟨fun a => if a = addr then xs else h.blocks a, h.next⟩

/-! ## C2: RawMemory move operations -/

/-- C2: the claim states move assignment leaves the source with capacity 0 and
a null handle.  The code (vector.h lines 38-42) merely copies the members, so
a source holding `{buffer = some 1, capacity = 5}` still holds them after the
assignment — contradicting the claim and the comment at vector.h line 24.
Move construction (lines 27-35) does null the source as claimed. -/
theorem rawMemory_moveAssign_leaves_source_intact :
    (RawMemory.moveAssign ⟨none, 0⟩ ⟨some 1, 5⟩).2 ≠
      (⟨none, 0⟩ : RawMemory) ∧
    (RawMemory.moveAssign ⟨none, 0⟩ ⟨some 1, 5⟩).1 = (⟨some 1, 5⟩ : RawMemory) ∧
    (RawMemory.moveCtor ⟨some 1, 5⟩).1 = (⟨some 1, 5⟩ : RawMemory) ∧
    (RawMemory.moveCtor ⟨some 1, 5⟩).2 = (⟨none, 0⟩ : RawMemory) := by
  refine ⟨?_, rfl, rfl, rfl⟩
  decide

/-! ## C3: the growth rule -/

/-- C3: whenever an appending or inserting operation needs one more slot than
the current capacity allows (`size_ == data_.Capacity()`), the newly allocated
capacity is `max 1 (2 * size)`: exactly 1 when growing from empty, and never
less than double the old capacity. -/
theorem growth_rule {α : Type} (v : Vec α) (x : α) (p : Nat)
    (h : v.elems.length = v.capacity) :
    (v.emplaceBack x).capacity = max 1 (2 * v.elems.length) ∧
    (v.pushBack x).capacity = max 1 (2 * v.elems.length) ∧
    (v.emplace p x).capacity = max 1 (2 * v.elems.length) ∧
    2 * v.capacity ≤ (v.emplaceBack x).capacity := by
  have hlt : ¬ v.elems.length < v.capacity := by omega
  have hgrow : Vec.growCapacity v.elems.length = max 1 (2 * v.elems.length) := by
    unfold Vec.growCapacity
    rcases Nat.eq_zero_or_pos v.elems.length with h0 | h0
    · simp [h0]
    · have : v.elems.length ≠ 0 := by omega
      simp [this]
      omega
  refine ⟨?_, ?_, ?_, ?_⟩
  · simp [Vec.emplaceBack, hlt, hgrow]
  · unfold Vec.pushBack
    rw [if_pos h]
    exact hgrow
  · simp [Vec.emplace, hlt, hgrow]
  · simp [Vec.emplaceBack, hlt, hgrow]
    omega

/-- Witness for `growth_rule` at a concrete full vector of size 2. -/
theorem growth_rule_witness :
    ((⟨[10, 20], 2⟩ : Vec Nat).emplaceBack 30).capacity = max 1 (2 * 2) ∧
    ((⟨[10, 20], 2⟩ : Vec Nat).pushBack 30).capacity = max 1 (2 * 2) ∧
    ((⟨[10, 20], 2⟩ : Vec Nat).emplace 1 30).capacity = max 1 (2 * 2) ∧
    2 * 2 ≤ ((⟨[10, 20], 2⟩ : Vec Nat).emplaceBack 30).capacity :=
  growth_rule (⟨[10, 20], 2⟩ : Vec Nat) 30 1 rfl

/-! ## C1: exception behaviour of the reallocation paths -/

/-- C1: the claim states that on every reallocation path a copy-constructor
throw leaves the original untouched AND destroys every element speculatively
constructed in the new storage, including the new element at its final
offset.  Evaluating the models at failing inputs: `EmplaceBack` on a full
one-element vector whose element copy throws propagates with the new element
(new-block offset 1) still constructed and never destroyed, and `Emplace` at
position 1 of a full two-element vector whose suffix copy throws leaves the
copied prefix element (offset 0) and the new element (offset 1) undestroyed —
while `PushBackImpl` on the same input destroys everything (empty leak list),
showing the intended behaviour the claim describes.  The original vector is
untouched in all three cases (first components of the `.error` payloads). -/
theorem emplaceBack_realloc_leaks_new_element :
    Vec.emplaceBackCopyRelocate (fun _ => false) (⟨[5], 1⟩ : Vec Nat) 7 =
      .error ((⟨[5], 1⟩ : Vec Nat), [1]) ∧
    Vec.pushBackCopyRelocate (fun _ => false) (⟨[5], 1⟩ : Vec Nat) 7 =
      .error ((⟨[5], 1⟩ : Vec Nat), []) ∧
    Vec.emplaceReallocCopyRelocate (fun i => decide (i < 1))
        (⟨[5, 6], 2⟩ : Vec Nat) 1 7 =
      .error ((⟨[5, 6], 2⟩ : Vec Nat), [0, 1]) :=
  ⟨rfl, rfl, rfl⟩

/-! ## C4: exception behaviour of the in-place insertion shift -/

/-- C4: if the copy-based rightward shift of `Emplace`'s in-place path throws
partway, the speculatively constructed one-past-end slot is destroyed before
the exception propagates (`false` in the error payload) and `size_` is not
incremented.  Stated over the model with the catch handler read as the
intended `std::destroy_n(end(), 1)`; the source's `std::destroy(end(), 1)` is
ill-formed C++, so the path as written does not even compile for the
copy-relocated types it serves. -/
theorem emplace_inplace_shift_failure {α : Type} (assignOk : Nat → Bool)
    (v : Vec α) (p : Nat) (x : α) (fail : Bool × Nat)
    (h : Vec.emplaceInPlaceCopyShift assignOk v p x = .error fail) :
    fail.1 = false ∧ fail.2 = v.elems.length := by
  unfold Vec.emplaceInPlaceCopyShift at h
  split at h
  · exact absurd h (by simp)
  · obtain ⟨rfl⟩ := Except.error.inj h
    exact ⟨rfl, rfl⟩

/-- Witness for `emplace_inplace_shift_failure`: a shift that fails on a
two-element vector with spare capacity, at position 0. -/
theorem emplace_inplace_shift_failure_witness :
    (false, 2).1 = false ∧
    ((false, 2) : Bool × Nat).2 = (⟨[1, 2], 3⟩ : Vec Nat).elems.length :=
  emplace_inplace_shift_failure (fun _ => false) (⟨[1, 2], 3⟩ : Vec Nat) 0 9
    (false, 2) rfl

/-! ## C5: copy assignment -/

/-- C5: after `a = rhs` (distinct objects), `a` has `rhs`'s size and elements;
the capacity stays put when it sufficed for `rhs.size_` and becomes exactly
`rhs.size_` otherwise (the swapped-in temporary's capacity); and on the
capacity-insufficient path a throw while building the temporary copy leaves
`a` untouched, while success swaps in a full copy with capacity exactly
`rhs.size_`. -/
theorem copyAssign_spec {α : Type} (a rhs : Vec α) :
    (a.copyAssign rhs).elems = rhs.elems ∧
    (a.copyAssign rhs).elems.length = rhs.elems.length ∧
    (a.copyAssign rhs).capacity =
      (if a.capacity < rhs.elems.length then rhs.elems.length
       else a.capacity) ∧
    Vec.copyAssignGrow false a rhs = .error a ∧
    Vec.copyAssignGrow true a rhs =
      .ok (⟨rhs.elems, rhs.elems.length⟩ : Vec α) := by
  have he : (a.copyAssign rhs).elems = rhs.elems := by
    unfold Vec.copyAssign
    split
    · rfl
    · split
      · rfl
      · show rhs.elems.take a.elems.length ++ rhs.elems.drop a.elems.length
            = rhs.elems
        exact List.take_append_drop _ _
  have hc : (a.copyAssign rhs).capacity =
      (if a.capacity < rhs.elems.length then rhs.elems.length
       else a.capacity) := by
    unfold Vec.copyAssign
    split
    · next h => simp [h]
    · next h => split <;> simp [h]
  exact ⟨he, by rw [he], hc, rfl, rfl⟩

/-! ## C6: Resize -/

/-- C6: `Resize(n)` with `n < size_` keeps exactly the first `n` elements,
sets the size to `n` and leaves the capacity alone; with `size_ < n` it
appends `n - size_` default-constructed elements and reserves capacity
exactly `n` when the current capacity is smaller (and keeps the current
capacity otherwise — `Reserve` is a no-op then); with `n = size_` nothing
changes. -/
theorem resize_spec {α : Type} [Inhabited α] (v : Vec α) (n : Nat)
    (hinv : v.elems.length ≤ v.capacity) :
    (n < v.elems.length →
       (v.resize n).elems = v.elems.take n ∧
       (v.resize n).elems.length = n ∧
       (v.resize n).capacity = v.capacity) ∧
    (v.elems.length < n →
       (v.resize n).elems =
         v.elems ++ List.replicate (n - v.elems.length) default ∧
       (v.resize n).elems.length = n ∧
       (v.resize n).capacity =
         (if n ≤ v.capacity then v.capacity else n)) ∧
    (n = v.elems.length → v.resize n = v) := by
  refine ⟨fun h => ?_, fun h => ?_, fun h => ?_⟩
  · unfold Vec.resize
    rw [if_pos h]
    refine ⟨rfl, ?_, rfl⟩
    simp [List.length_take]
    omega
  · unfold Vec.resize Vec.reserve
    rw [if_neg (by omega)]
    refine ⟨rfl, ?_, ?_⟩
    · simp
      omega
    · split <;> rfl
  · unfold Vec.resize Vec.reserve
    rw [if_neg (by omega), if_pos (by omega)]
    show (⟨v.elems ++ List.replicate (n - v.elems.length) default,
          v.capacity⟩ : Vec α) = v
    rw [h]
    simp

/-- Witness for `resize_spec`: shrinking `[1, 2]` (capacity 3) to one
element. -/
theorem resize_spec_witness :
    ((⟨[1, 2], 3⟩ : Vec Nat).resize 1).elems = ([1, 2] : List Nat).take 1 ∧
    ((⟨[1, 2], 3⟩ : Vec Nat).resize 1).elems.length = 1 ∧
    ((⟨[1, 2], 3⟩ : Vec Nat).resize 1).capacity = 3 :=
  (resize_spec (⟨[1, 2], 3⟩ : Vec Nat) 1 (by decide)).1 (by decide)

/-! ## C7: copy construction and storage independence -/

/-- C7: `B = copy(A)` yields the same size, element-wise equal contents, and
capacity exactly `A.size` with no spare; in the heap model the copy lives in
a freshly allocated block distinct from `A`'s, with `A`'s contents, so any
subsequent write through `B`'s block leaves `A`'s block unchanged. -/
theorem copyCtor_independent {α : Type} (w : Vec α) (h : Heap α) (a : HVec α)
    (ha : a.addr < h.next) (xs : List α) :
    (Vec.copyCtor w).elems = w.elems ∧
    (Vec.copyCtor w).elems.length = w.elems.length ∧
    (Vec.copyCtor w).capacity = w.elems.length ∧
    (copyCtorH h a).1.addr ≠ a.addr ∧
    (copyCtorH h a).2.blocks (copyCtorH h a).1.addr = h.blocks a.addr ∧
    (copyCtorH h a).1.capacity = (h.blocks a.addr).length ∧
    (writeBlock (copyCtorH h a).2 (copyCtorH h a).1.addr xs).blocks a.addr
      = h.blocks a.addr := by
  have hne : a.addr ≠ h.next := by omega
  refine ⟨rfl, rfl, rfl, ?_, ?_, rfl, ?_⟩
  · exact fun hc => hne hc.symm
  · simp [copyCtorH]
  · simp [copyCtorH, writeBlock, hne]

/-- Witness for `copyCtor_independent` at a one-block heap: the copy of the
vector at address 0 is placed at address 1, and overwriting the copy's block
with `[42]` leaves block 0 unchanged. -/
theorem copyCtor_independent_witness :
    (Vec.copyCtor (⟨[3], 1⟩ : Vec Nat)).elems = [3] ∧
    (Vec.copyCtor (⟨[3], 1⟩ : Vec Nat)).elems.length = ([3] : List Nat).length ∧
    (Vec.copyCtor (⟨[3], 1⟩ : Vec Nat)).capacity = ([3] : List Nat).length ∧
    (copyCtorH (⟨fun _ => [7], 1⟩ : Heap Nat) ⟨0, 1⟩).1.addr ≠ 0 ∧
    (copyCtorH (⟨fun _ => [7], 1⟩ : Heap Nat) ⟨0, 1⟩).2.blocks
        (copyCtorH (⟨fun _ => [7], 1⟩ : Heap Nat) ⟨0, 1⟩).1.addr
      = (⟨fun _ => [7], 1⟩ : Heap Nat).blocks 0 ∧
    (copyCtorH (⟨fun _ => [7], 1⟩ : Heap Nat) ⟨0, 1⟩).1.capacity
      = ((⟨fun _ => [7], 1⟩ : Heap Nat).blocks 0).length ∧
    (writeBlock (copyCtorH (⟨fun _ => [7], 1⟩ : Heap Nat) ⟨0, 1⟩).2
        (copyCtorH (⟨fun _ => [7], 1⟩ : Heap Nat) ⟨0, 1⟩).1.addr [42]).blocks 0
      = (⟨fun _ => [7], 1⟩ : Heap Nat).blocks 0 := by
  have := copyCtor_independent (⟨[3], 1⟩ : Vec Nat)
    (⟨fun _ => [7], 1⟩ : Heap Nat) ⟨0, 1⟩ (by decide) [42]
  simpa using this

/-! ## C8: insert then erase is the identity -/

/-- C8: for a position `p` within `[begin, end]`, inserting a value at `p`
and then erasing position `p` restores the original element sequence: same
size and same values in the same order. -/
theorem insert_erase_inverse {α : Type} (v : Vec α) (p : Nat) (x : α)
    (hp : p ≤ v.elems.length) :
    ((v.emplace p x).erase p).elems = v.elems ∧
    ((v.emplace p x).erase p).elems.length = v.elems.length := by
  have he : (v.emplace p x).elems =
      v.elems.take p ++ [x] ++ v.elems.drop p := by
    unfold Vec.emplace
    split <;> rfl
  have hlen : (v.elems.take p).length = p := by
    simp [List.length_take]
    omega
  have key : ((v.emplace p x).erase p).elems = v.elems := by
    show ((v.emplace p x).elems.take p ++ (v.emplace p x).elems.drop (p + 1))
        = v.elems
    rw [he]
    have h1 : (v.elems.take p ++ [x] ++ v.elems.drop p).take p
        = v.elems.take p := by
      rw [List.append_assoc]
      exact List.take_left' hlen
    have h2 : (v.elems.take p ++ [x] ++ v.elems.drop p).drop (p + 1)
        = v.elems.drop p := by
      have hlen2 : (v.elems.take p ++ [x]).length = p + 1 := by
        simp [hlen]
      exact List.drop_left' hlen2
    rw [h1, h2]
    exact List.take_append_drop _ _
  exact ⟨key, by rw [key]⟩

/-- Witness for `insert_erase_inverse`: inserting 99 at position 1 of
`[10, 20, 30]` and erasing position 1 restores `[10, 20, 30]`. -/
theorem insert_erase_inverse_witness :
    (((⟨[10, 20, 30], 3⟩ : Vec Nat).emplace 1 99).erase 1).elems
      = [10, 20, 30] ∧
    (((⟨[10, 20, 30], 3⟩ : Vec Nat).emplace 1 99).erase 1).elems.length
      = ([10, 20, 30] : List Nat).length :=
  insert_erase_inverse (⟨[10, 20, 30], 3⟩ : Vec Nat) 1 99 (by decide)

/-! ## C9: PopBack -/

/-- C9: on a vector with at least one element (and a size representable in
`size_t`), `PopBack` destroys exactly the last element, leaves the preceding
elements and the capacity unchanged, and the `--size_` decrement yields
`size - 1`; on an empty vector the unchecked `--size_` wraps the unsigned
counter to `2 ^ 64 - 1`. -/
theorem popBack_spec {α : Type} (v : Vec α) (h1 : 1 ≤ v.elems.length)
    (h2 : v.elems.length < 2 ^ 64) :
    v.popBack.elems = v.elems.dropLast ∧
    v.popBack.elems.length = v.elems.length - 1 ∧
    v.popBack.capacity = v.capacity ∧
    Vec.sizeAfterPopBack v.elems.length = v.elems.length - 1 ∧
    Vec.sizeAfterPopBack 0 = 2 ^ 64 - 1 := by
  have hpow : (2 : Nat) ^ 64 = 18446744073709551616 := by norm_num
  refine ⟨rfl, ?_, rfl, ?_, ?_⟩
  · show v.elems.dropLast.length = v.elems.length - 1
    simp
  · unfold Vec.sizeAfterPopBack
    rw [hpow] at h2 ⊢
    omega
  · unfold Vec.sizeAfterPopBack
    rw [hpow]

/-- Witness for `popBack_spec` on the two-element vector `[7, 8]`. -/
theorem popBack_spec_witness :
    (⟨[7, 8], 2⟩ : Vec Nat).popBack.elems = ([7, 8] : List Nat).dropLast ∧
    (⟨[7, 8], 2⟩ : Vec Nat).popBack.elems.length = 2 - 1 ∧
    (⟨[7, 8], 2⟩ : Vec Nat).popBack.capacity = 2 ∧
    Vec.sizeAfterPopBack 2 = 2 - 1 ∧
    Vec.sizeAfterPopBack 0 = 2 ^ 64 - 1 :=
  popBack_spec (⟨[7, 8], 2⟩ : Vec Nat) (by decide) (by norm_num)

/-! ## C10: self-assignment -/

/-- C10: both assignment operators guard on `this != &rhs`, so copy
self-assignment and move self-assignment leave the vector — its size,
capacity and every element — unchanged. -/
theorem self_assignment_identity {α : Type} (a : Vec α) :
    Vec.copyAssignOp true a a = a ∧
    (Vec.moveAssignOp true a a).1 = a ∧
    (Vec.copyAssignOp true a a).elems = a.elems ∧
    (Vec.copyAssignOp true a a).capacity = a.capacity ∧
    ((Vec.moveAssignOp true a a).1).elems = a.elems ∧
    ((Vec.moveAssignOp true a a).1).capacity = a.capacity :=
  ⟨rfl, rfl, rfl, rfl, rfl, rfl⟩
